import Mathlib

/-!
Verification development for the OmniParser MCP action-dispatch layer
(`mcp_server.py`) and the Gemini message-history adapter / generation
invoker (`omnitool/gradio/agent/llm_utils/googleaiclient.py`).

The Python code is shallowly embedded: each handler becomes a pure Lean
function over an explicit model of its dynamic inputs, and effects
(backend invocation, sleeping, the remote generation call, the
filesystem) are represented by explicit descriptor values or function
parameters.
-/

namespace McpServer

/-- A dynamically-typed Python value as it can appear in a loosely-typed
parameter bag.  `none_` models Python `None`, which is also what
`params.get(key)` yields for an absent key. -/
inductive PyVal where
  | int (n : Int)
  | str (s : String)
  | float (q : ℚ)
  | none_
  deriving DecidableEq, Repr

/-- The uniform envelope dict returned by every handler in
`mcp_server.py`.  Success dicts carry `output` and `base64_image`; error
dicts carry `message`; absent keys are `none`. -/
structure Envelope where
  status : String
  output : Option String := none
  base64_image : Option String := none
  message : Option String := none
  deriving DecidableEq, Repr

/-- Outcome of calling the underlying `ComputerTool` backend: a normal
`ToolResult` (with its `output` and optional `base64_image`), a raised
`ToolError` with a message, or any other raised exception with its
string rendering. -/
inductive BackendResult where
  | ok (output : Option String) (base64_image : Option String)
  | toolError (msg : String)
  | otherExc (msg : String)
  deriving DecidableEq, Repr

/-- `safe_computer_action` from `mcp_server.py` lines 25-39: wraps the
backend call outcome into the uniform envelope and never re-raises. -/
def safe_computer_action : BackendResult → Envelope
  | .ok o b => { status := "success", output := o, base64_image := b }
  | .toolError m => { status := "error", message := some m }
  | .otherExc m =>
      { status := "error", message := some ("Unexpected error in ComputerTool: " ++ m) }

/-- Result of a dispatcher entry point, before the backend runs: either
an immediate error envelope returned without invoking the backend
(`reject`), or an invocation of `safe_computer_action` with the resolved
action token and the optional `text` / `coordinate` arguments
(`invoke`).  The backend is invoked exactly in the `invoke` case. -/
inductive Dispatch where
  | invoke (action : String) (text : Option PyVal) (coordinate : Option (PyVal × PyVal))
  | reject (message : String)
  deriving DecidableEq, Repr

/-- `handle_mouse_move` (lines 43-49).  `x`/`y` are the results of
`params.get("x")` / `params.get("y")` (so `.none_` when the key is
absent); `typing.cast` is a runtime no-op and performs no check. -/
def handle_mouse_move (x y : PyVal) : Dispatch :=
  if x = .none_ ∨ y = .none_ then
    .reject "Missing x or y coordinate."
  else
    .invoke "mouse_move" none (some (x, y))

/-- The `action_map` dict literal inside `handle_mouse_click`
(lines 56-61), modelled as an association list; `dict.get` is
`List.lookup`. -/
def action_map : List ((String × String) × String) :=
  [ (("left", "click"), "left_click"),
    (("right", "click"), "right_click"),
    (("middle", "click"), "middle_click"),
    (("left", "double"), "double_click") ]

/-- `handle_mouse_click` (lines 51-66).  `button` / `click_type` are the
results of `params.get` with defaults `"left"` / `"click"`: `none` means
the key was absent from the parameter bag. -/
def handle_mouse_click (button click_type : Option String) : Dispatch :=
  let b := button.getD "left"
  let c := click_type.getD "click"
  match action_map.lookup (b.toLower, c.toLower) with
  | some tok => .invoke tok none none
  | none => .reject ("Unsupported button/click_type: " ++ b ++ "/" ++ c)

/-- `handle_mouse_drag` (lines 68-74). -/
def handle_mouse_drag (x y : PyVal) : Dispatch :=
  if x = .none_ ∨ y = .none_ then
    .reject "Missing x or y coordinate for drag."
  else
    .invoke "left_click_drag" none (some (x, y))

/-- `handle_keyboard_type` (lines 76-81). -/
def handle_keyboard_type (text_to_type : PyVal) : Dispatch :=
  if text_to_type = .none_ then
    .reject "Missing text_to_type."
  else
    .invoke "type" (some text_to_type) none

/-- `handle_keyboard_press_key` (lines 83-88). -/
def handle_keyboard_press_key (key_to_press : PyVal) : Dispatch :=
  if key_to_press = .none_ then
    .reject "Missing key_to_press."
  else
    .invoke "key" (some key_to_press) none

/-- `handle_get_cursor_position` (lines 90-92). -/
def handle_get_cursor_position : Dispatch :=
  .invoke "cursor_position" none none

/-- Result of `handle_wait_seconds`: either a pure `asyncio.sleep` of
the given duration followed by returning the given envelope (backend not
invoked), or an invocation of the backend's default `"wait"` action. -/
inductive WaitDispatch where
  | sleep (d : ℚ) (env : Envelope)
  | invokeWait
  deriving DecidableEq, Repr

/-- `handle_wait_seconds` (lines 94-103).  `duration` is the result of
`params.get("duration", 0.0)` (`none` = key absent, defaulting to `0`);
Python floats supplied by the transport are modelled as rationals. -/
def handle_wait_seconds (duration : Option ℚ) : WaitDispatch :=
  let d := duration.getD 0
  if 0 < d then
    .sleep d { status := "success", output := some ("Waited for " ++ toString d ++ " seconds.") }
  else
    .invokeWait

/-- Running a dispatch against a backend: a rejected dispatch returns
its error envelope and never consults the backend; an invocation returns
`safe_computer_action` of the backend's outcome. -/
def dispatchRun (backend : String → Option PyVal → Option (PyVal × PyVal) → BackendResult) :
    Dispatch → Envelope
  | .reject m => { status := "error", message := some m }
  | .invoke a t c => safe_computer_action (backend a t c)

/-- The click lookup table exactly as the specification words it:
(left,click)→left_click, (right,click)→right_click,
(middle,click)→middle_click, (left,double)→double_click, and nothing
else. -/
def clickTableSpec (b c : String) : Option String :=
  if b = "left" ∧ c = "click" then some "left_click"
  else if b = "right" ∧ c = "click" then some "right_click"
  else if b = "middle" ∧ c = "click" then some "middle_click"
  else if b = "left" ∧ c = "double" then some "double_click"
  else none

end McpServer

namespace GoogleAiClient

/-- What the filesystem and `PIL.Image.open` do for a given path, as
observed by the adapter: `os.path.exists` is false (`absent`); the file
opens as an image (`okImage`, carrying an identifier for the loaded
image object); `Image.open` raises `FileNotFoundError` (`fileNotFound`),
`UnidentifiedImageError` (`unidentified`), or any other exception with
message `e` (`loadError`). -/
inductive FileStatus where
  | absent
  | okImage (img : String)
  | fileNotFound
  | unidentified
  | loadError (e : String)
  deriving DecidableEq, Repr

/-- One entry of a message's `content` list: a dict with
`type == "text"` and a `text` field (`textDict`), a dict whose `type`
tag is anything else (`otherDict`), a plain string (`str`), or any
non-string non-dict value such as a number (`other`). -/
inductive ContentItem where
  | textDict (txt : String)
  | otherDict (ty : Option String)
  | str (s : String)
  | other
  deriving DecidableEq, Repr

/-- A message's `content` field: a plain string, a list of items, or
anything else (including an absent key). -/
inductive Content where
  | str (s : String)
  | list (items : List ContentItem)
  | other
  deriving DecidableEq, Repr

/-- One input message: `role` is `msg.get("role")` (`none` when the key
is absent). -/
structure Msg where
  role : Option String
  content : Content
  deriving DecidableEq, Repr

/-- One part of an adapted turn: a text string or a loaded image
object. -/
inductive Part where
  | text (s : String)
  | image (img : String)
  deriving DecidableEq, Repr

/-- One adapted turn `{"role": role, "parts": parts}` of
`gemini_history`. -/
structure Turn where
  role : String
  parts : List Part
  deriving DecidableEq, Repr

/-- `suf` is a suffix of `s` (character-list level, so that it computes
inside the kernel). -/
def strEndsWith (suf s : String) : Bool :=
  List.isSuffixOf suf.data s.data

/-- Modelled from the spec: the path-shape heuristic `is_image_path`
(imported from `omnitool/gradio/agent/llm_utils/utils.py`, which is not
under `src/`).  Per the spec it recognizes a string as an image
reference by its shape alone, not by file existence; modelled as: the
string ends with a common image-file extension. -/
def is_image_path (s : String) : Bool :=
  strEndsWith ".png" s || strEndsWith ".jpg" s || strEndsWith ".jpeg" s ||
  strEndsWith ".gif" s || strEndsWith ".bmp" s || strEndsWith ".tiff" s ||
  strEndsWith ".tif" s

/-- Helper for `basename`: the characters after the last `/`. -/
def basenameAux (acc : List Char) : List Char → List Char
  | [] => acc.reverse
  | c :: cs => if c = '/' then basenameAux [] cs else basenameAux (c :: acc) cs

/-- `os.path.basename`: the part of the path after the last `/`. -/
def basename (s : String) : String :=
  ⟨basenameAux [] s.data⟩

/-- The parts contributed by one content-list item
(`googleaiclient.py` lines 68-89): a `{"type":"text"}` dict contributes
its text; an image-path string contributes the loaded image or an
inline placeholder according to the file status; any other string is
appended verbatim; everything else contributes nothing. -/
def itemParts (fs : String → FileStatus) : ContentItem → List Part
  | .textDict txt => [.text txt]
  | .otherDict _ => []
  | .str s =>
      if is_image_path s then
        match fs s with
        | .okImage img => [.image img]
        | .absent => [.text ("[Image not found: " ++ basename s ++ "]")]
        | .fileNotFound => [.text ("[Image not found: " ++ basename s ++ "]")]
        | .unidentified => [.text ("[Unidentifiable image: " ++ basename s ++ "]")]
        | .loadError _ => [.text ("[Error loading image: " ++ basename s ++ "]")]
      else [.text s]
  | .other => []

/-- The `gemini_parts` accumulated for one message's content
(lines 66-91): a string content is a single text part; a list is
processed item by item; any other content shape yields no parts. -/
def contentParts (fs : String → FileStatus) : Content → List Part
  | .str s => [.text s]
  | .list items => items.flatMap (itemParts fs)
  | .other => []

/-- The role rebinding on line 62: `"assistant"` becomes `"model"`,
every other role is kept. -/
def remapRole (r : Option String) : Option String :=
  if r = some "assistant" then some "model" else r

/-- The final `if gemini_parts:` append on lines 93-94: a turn is kept
only when its part list is non-empty. -/
def mkTurn (role : String) (parts : List Part) : Option Turn :=
  if parts.isEmpty then none else some ⟨role, parts⟩

/-- Adapting one message (lines 57-94): remap the role, drop `"tool"`
messages and messages whose remapped role is not `"user"`/`"model"`,
collect the parts, and drop the message when no part survives. -/
def adaptMsg (fs : String → FileStatus) (m : Msg) : Option Turn :=
  match remapRole m.role with
  | some "tool" => none
  | some "user" => mkTurn "user" (contentParts fs m.content)
  | some "model" => mkTurn "model" (contentParts fs m.content)
  | _ => none

/-- The `gemini_history` list built by the single pass over the (deep
copy of the) input messages (lines 55-94). -/
def gemini_history (fs : String → FileStatus) (messages : List Msg) : List Turn :=
  messages.filterMap (adaptMsg fs)

/-- Token accounting returned by `run_gemini_interleaved`. -/
structure TokenInfo where
  input_tokens : Nat
  output_tokens : Nat
  total_tokens : Nat
  deriving DecidableEq, Repr

/-- The all-zero token counters (line 39). -/
def zeroTokens : TokenInfo := ⟨0, 0, 0⟩

/-- Outcome of the remote-API interaction (configure / model
construction / `generate_content` / reading `response.text`): success
with the response text and, when `response.usage_metadata` is readable,
the `prompt_token_count` and `candidates_token_count` pair (`none` when
accessing the metadata raises `AttributeError`); or a raised
`ImportError`, `AttributeError`, `TypeError`, or any other exception
(with its type name and message). -/
inductive GeminiOutcome where
  | ok (text : String) (usage : Option (Nat × Nat))
  | importError (e : String)
  | attributeError (e : String)
  | typeError (e : String)
  | otherError (tyName : String) (e : String)
  deriving DecidableEq, Repr

/-- `run_gemini_interleaved` (lines 10-132): build `gemini_history`,
issue the single generation request (abstracted as `api`, a function of
the adapted history), and classify the outcome into the returned
`(response_text, token_info)` pair.  Every failure class is converted
into a descriptive string with zero token counters; the function is
total, so nothing escapes its boundary. -/
def run_gemini_interleaved (fs : String → FileStatus)
    (api : List Turn → GeminiOutcome) (messages : List Msg) : String × TokenInfo :=
  match api (gemini_history fs messages) with
  | .ok text (some (i, o)) => (text, ⟨i, o, i + o⟩)
  | .ok text none => (text, zeroTokens)
  | .importError e =>
      ("ImportError: Please install google-generativeai. " ++ e, zeroTokens)
  | .attributeError e =>
      ("Error setting up Gemini call (AttributeError): " ++ e ++ ".", zeroTokens)
  | .typeError e =>
      ("Type error during Gemini call (check arguments/version): " ++ e ++ ".", zeroTokens)
  | .otherError tyName e =>
      ("Error interacting with Gemini API: " ++ tyName ++ " - " ++ e, zeroTokens)

/-- Helper for `occursIn`: `needle` occurs as a contiguous run inside
the character list. -/
def occursData (needle : List Char) : List Char → Bool
  | [] => needle.isEmpty
  | c :: t => List.isPrefixOf needle (c :: t) || occursData needle t

/-- Decidable substring test: `needle` occurs inside `hay`. -/
def occursIn (needle hay : String) : Bool :=
  occursData needle.data hay.data

/-! Helper lemmas about the adapter, shared by several results below. -/

theorem mkTurn_eq_some {r : String} {p : List Part} {t : Turn} (h : mkTurn r p = some t) :
    t.role = r ∧ t.parts = p ∧ p ≠ [] := by
  unfold mkTurn at h
  split at h
  · simp at h
  · obtain rfl := Option.some.inj h
    simp_all [List.isEmpty_iff]

theorem adaptMsg_eq_some {fs : String → FileStatus} {m : Msg} {t : Turn}
    (h : adaptMsg fs m = some t) : (t.role = "user" ∨ t.role = "model") ∧ t.parts ≠ [] := by
  unfold adaptMsg at h
  split at h
  · simp at h
  · obtain ⟨h1, h2, h3⟩ := mkTurn_eq_some h
    exact ⟨Or.inl h1, h2 ▸ h3⟩
  · obtain ⟨h1, h2, h3⟩ := mkTurn_eq_some h
    exact ⟨Or.inr h1, h2 ▸ h3⟩
  · simp at h

theorem adaptMsg_tool {fs : String → FileStatus} {m : Msg} (h : m.role = some "tool") :
    adaptMsg fs m = none := by
  unfold adaptMsg remapRole
  rw [h]
  rfl

theorem adaptMsg_drop_role {fs : String → FileStatus} {m : Msg}
    (h1 : remapRole m.role ≠ some "user") (h2 : remapRole m.role ≠ some "model") :
    adaptMsg fs m = none := by
  unfold adaptMsg
  split
  · rfl
  · simp_all
  · simp_all
  · rfl

theorem adaptMsg_empty_parts {fs : String → FileStatus} {m : Msg}
    (h : contentParts fs m.content = []) : adaptMsg fs m = none := by
  unfold adaptMsg
  split
  · rfl
  · rw [h]; rfl
  · rw [h]; rfl
  · rfl

theorem gemini_history_drop {fs : String → FileStatus} {pre post : List Msg} {m : Msg}
    (h : adaptMsg fs m = none) :
    gemini_history fs (pre ++ m :: post) = gemini_history fs (pre ++ post) := by
  simp [gemini_history, List.filterMap_append, List.filterMap_cons, h]

end GoogleAiClient

/-! Claim theorems. -/

open McpServer GoogleAiClient

/-- C1: `handle_mouse_click` resolves the (button, click_type) pair
case-insensitively (with defaults `"left"` / `"click"` for absent keys)
through exactly the fixed table {(left,click)→left_click,
(right,click)→right_click, (middle,click)→middle_click,
(left,double)→double_click}, invoking the backend with the resolved
token, and every pair outside the table yields an error envelope naming
the unsupported button/click_type combination without invoking the
backend. -/
theorem mouse_click_dispatch_table :
    (∀ b c : String, McpServer.action_map.lookup (b, c) = clickTableSpec b c) ∧
    (∀ button click_type : Option String,
      handle_mouse_click button click_type =
        match clickTableSpec ((button.getD "left").toLower) ((click_type.getD "click").toLower) with
        | some tok => Dispatch.invoke tok none none
        | none => Dispatch.reject
            ("Unsupported button/click_type: " ++ button.getD "left" ++ "/" ++
              click_type.getD "click")) := by
  have hl : ∀ b c : String, McpServer.action_map.lookup (b, c) = clickTableSpec b c := by
    intro b c
    simp only [McpServer.action_map, clickTableSpec, List.lookup]
    repeat' split
    all_goals simp_all [Prod.ext_iff]
  refine ⟨hl, ?_⟩
  intro button click_type
  unfold handle_mouse_click
  cases h : clickTableSpec ((button.getD "left").toLower) ((click_type.getD "click").toLower) with
  | none => simp only [hl, h]
  | some tok => simp only [hl, h]

/-- C2: each dispatcher entry point with a mandatory field rejects a
parameter bag missing that field (`params.get` yields Python `None`)
with an error message naming the field(s), without invoking the backend
(a `Dispatch.reject` never reaches `safe_computer_action`). -/
theorem missing_required_field_rejects :
    (∀ x y : PyVal, x = .none_ ∨ y = .none_ →
      handle_mouse_move x y = .reject "Missing x or y coordinate.") ∧
    (∀ x y : PyVal, x = .none_ ∨ y = .none_ →
      handle_mouse_drag x y = .reject "Missing x or y coordinate for drag.") ∧
    (handle_keyboard_type .none_ = .reject "Missing text_to_type.") ∧
    (handle_keyboard_press_key .none_ = .reject "Missing key_to_press.") ∧
    (∀ backend msg, dispatchRun backend (.reject msg) =
      { status := "error", message := some msg }) := by
  refine ⟨?_, ?_, by rfl, by rfl, fun _ _ => rfl⟩
  · intro x y h
    simp [handle_mouse_move, h]
  · intro x y h
    simp [handle_mouse_drag, h]

/-- Witness for C2 at concrete inputs. -/
theorem missing_required_field_rejects_witness :
    handle_mouse_move .none_ (.int 7) = .reject "Missing x or y coordinate." ∧
    handle_mouse_drag (.int 3) .none_ = .reject "Missing x or y coordinate for drag." :=
  ⟨missing_required_field_rejects.1 _ _ (Or.inl rfl),
   missing_required_field_rejects.2.1 _ _ (Or.inr rfl)⟩

/-- C3: `safe_computer_action` classifies every backend outcome into
exactly one envelope: a raised `ToolError` gives an error envelope with
the error's own message; any other exception gives an error envelope
whose message wraps the original failure text; a normal result gives a
success envelope carrying the backend output and optional image.  The
function is total, so no exception escapes to the registry. -/
theorem safe_computer_action_classification :
    ∀ r : BackendResult,
      (∀ m, r = .toolError m →
        safe_computer_action r = { status := "error", message := some m }) ∧
      (∀ m, r = .otherExc m →
        safe_computer_action r =
          { status := "error",
            message := some ("Unexpected error in ComputerTool: " ++ m) }) ∧
      (∀ o b, r = .ok o b →
        safe_computer_action r = { status := "success", output := o, base64_image := b }) := by
  intro r
  refine ⟨?_, ?_, ?_⟩ <;> intros <;> subst_vars <;> rfl

/-- Witness for C3 at concrete backend outcomes. -/
theorem safe_computer_action_classification_witness :
    safe_computer_action (.toolError "invalid coordinate") =
      { status := "error", message := some "invalid coordinate" } ∧
    safe_computer_action (.otherExc "boom") =
      { status := "error", message := some "Unexpected error in ComputerTool: boom" } ∧
    safe_computer_action (.ok (some "done") (some "img64")) =
      { status := "success", output := some "done", base64_image := some "img64" } :=
  ⟨(safe_computer_action_classification _).1 _ rfl,
   (safe_computer_action_classification _).2.1 _ rfl,
   (safe_computer_action_classification _).2.2 _ _ rfl⟩

/-- C5: `handle_wait_seconds` with a strictly positive duration sleeps
for exactly that duration and returns a success envelope with a
descriptive message, without invoking the backend; an absent, zero, or
negative duration instead invokes the backend's default `"wait"`
action. -/
theorem wait_seconds_dispatch :
    ∀ duration : Option ℚ,
      (0 < duration.getD 0 →
        handle_wait_seconds duration =
          .sleep (duration.getD 0)
            { status := "success",
              output := some ("Waited for " ++ toString (duration.getD 0) ++ " seconds.") }) ∧
      (duration.getD 0 ≤ 0 → handle_wait_seconds duration = .invokeWait) := by
  intro duration
  constructor
  · intro h
    simp [handle_wait_seconds, h]
  · intro h
    simp [handle_wait_seconds, not_lt.mpr h]

/-- Witness for C5: duration 5/2 sleeps; absent duration falls back to
the backend wait. -/
theorem wait_seconds_dispatch_witness :
    handle_wait_seconds (some (5 / 2)) =
      .sleep ((5 : ℚ) / 2)
        { status := "success",
          output := some ("Waited for " ++ toString ((5 : ℚ) / 2) ++ " seconds.") } ∧
    handle_wait_seconds none = .invokeWait :=
  ⟨(wait_seconds_dispatch (some (5 / 2))).1 (by rw [Option.getD_some]; norm_num),
   (wait_seconds_dispatch none).2 le_rfl⟩

/-- C9 counterexample: `handle_mouse_move` with `x` present but not an
integer (`typing.cast` performs no runtime check) does NOT return an
error envelope — it forwards the ill-typed value to the backend,
contradicting the claim that the entry point's validation detects type
mismatches. -/
theorem ill_typed_field_invokes_backend :
    handle_mouse_move (.str "not a number") (.int 2) =
      .invoke "mouse_move" none (some (.str "not a number", .int 2)) ∧
    ∀ msg, handle_mouse_move (.str "not a number") (.int 2) ≠ .reject msg := by
  constructor
  · rfl
  · intro msg h
    simp [handle_mouse_move] at h

/-- C9 amended: the entry points detect only absence (a `None` value
from `params.get`); any present non-`None` value — of any dynamic type —
is forwarded to the backend unvalidated. -/
theorem present_fields_forwarded_unchecked :
    (∀ x y : PyVal, x ≠ .none_ → y ≠ .none_ →
      handle_mouse_move x y = .invoke "mouse_move" none (some (x, y))) ∧
    (∀ x y : PyVal, x ≠ .none_ → y ≠ .none_ →
      handle_mouse_drag x y = .invoke "left_click_drag" none (some (x, y))) ∧
    (∀ t : PyVal, t ≠ .none_ → handle_keyboard_type t = .invoke "type" (some t) none) ∧
    (∀ k : PyVal, k ≠ .none_ → handle_keyboard_press_key k = .invoke "key" (some k) none) := by
  refine ⟨?_, ?_, ?_, ?_⟩
  · intro x y hx hy
    simp [handle_mouse_move, hx, hy]
  · intro x y hx hy
    simp [handle_mouse_drag, hx, hy]
  · intro t ht
    simp [handle_keyboard_type, ht]
  · intro k hk
    simp [handle_keyboard_press_key, hk]

/-- Witness for the amended C9 at concrete ill-typed and well-typed
inputs. -/
theorem present_fields_forwarded_unchecked_witness :
    handle_mouse_move (.float (1 / 2)) (.int 4) =
      .invoke "mouse_move" none (some (.float (1 / 2), .int 4)) ∧
    handle_mouse_drag (.int 1) (.str "two") =
      .invoke "left_click_drag" none (some (.int 1, .str "two")) ∧
    handle_keyboard_type (.int 99) = .invoke "type" (some (.int 99)) none ∧
    handle_keyboard_press_key (.str "Enter") = .invoke "key" (some (.str "Enter")) none :=
  ⟨present_fields_forwarded_unchecked.1 _ _ (by simp) (by simp),
   present_fields_forwarded_unchecked.2.1 _ _ (by simp) (by simp),
   present_fields_forwarded_unchecked.2.2.1 _ (by simp),
   present_fields_forwarded_unchecked.2.2.2 _ (by simp)⟩

/-- C4: the message-history adapter remaps role `"assistant"` to
`"model"`, drops every `"tool"` message entirely (content included),
drops every message whose remapped role is not `"user"`/`"model"`,
drops every message whose part list is empty after content processing;
hence a tool-only conversation adapts to the empty history, and every
adapted turn has role `"user"` or `"model"` and a non-empty part
list. -/
theorem adapter_role_discipline :
    ∀ (fs : String → FileStatus) (msgs : List Msg),
      (∀ t ∈ gemini_history fs msgs, (t.role = "user" ∨ t.role = "model") ∧ t.parts ≠ []) ∧
      (∀ c, adaptMsg fs ⟨some "assistant", c⟩ = adaptMsg fs ⟨some "model", c⟩) ∧
      (∀ pre post (m : Msg), m.role = some "tool" →
        gemini_history fs (pre ++ m :: post) = gemini_history fs (pre ++ post)) ∧
      (∀ pre post (m : Msg), remapRole m.role ≠ some "user" → remapRole m.role ≠ some "model" →
        gemini_history fs (pre ++ m :: post) = gemini_history fs (pre ++ post)) ∧
      (∀ m : Msg, contentParts fs m.content = [] → adaptMsg fs m = none) ∧
      ((∀ m ∈ msgs, m.role = some "tool") → gemini_history fs msgs = []) := by
  intro fs msgs
  refine ⟨?_, fun c => rfl, ?_, ?_, fun m h => adaptMsg_empty_parts h, ?_⟩
  · intro t ht
    obtain ⟨m, _, h⟩ := List.mem_filterMap.mp ht
    exact adaptMsg_eq_some h
  · intro pre post m h
    exact gemini_history_drop (adaptMsg_tool h)
  · intro pre post m h1 h2
    exact gemini_history_drop (adaptMsg_drop_role h1 h2)
  · intro h
    simp only [gemini_history, List.filterMap_eq_nil_iff]
    intro m hm
    exact adaptMsg_tool (h m hm)

/-- Witness for C4: a concrete tool message is dropped from the middle
of a conversation, and a tool-only conversation adapts to `[]`. -/
theorem adapter_role_discipline_witness :
    gemini_history (fun _ => .absent)
        ([⟨some "user", .str "hi"⟩] ++ ⟨some "tool", .str "result"⟩ :: [⟨some "assistant", .str "ok"⟩]) =
      gemini_history (fun _ => .absent) ([⟨some "user", .str "hi"⟩] ++ [⟨some "assistant", .str "ok"⟩]) ∧
    gemini_history (fun _ => .absent) [⟨some "tool", .str "a"⟩, ⟨some "tool", .other⟩] = [] :=
  ⟨(adapter_role_discipline (fun _ => .absent) []).2.2.1
      [⟨some "user", .str "hi"⟩] [⟨some "assistant", .str "ok"⟩]
      ⟨some "tool", .str "result"⟩ rfl,
   (adapter_role_discipline (fun _ => .absent)
      [⟨some "tool", .str "a"⟩, ⟨some "tool", .other⟩]).2.2.2.2.2 (by decide)⟩

/-- C6: `run_gemini_interleaved` always returns a `(text, token_info)`
pair; every failure class (missing dependency, attribute-shape mismatch,
argument/type mismatch, any other exception) becomes a descriptive
string in the text field together with all-zero usage counters, and a
success returns the response text with the extracted counters (zeros
when the usage metadata is unreadable). -/
theorem run_gemini_failure_classification :
    ∀ (fs : String → FileStatus) (api : List Turn → GeminiOutcome) (messages : List Msg),
      (∀ e, api (gemini_history fs messages) = .importError e →
        run_gemini_interleaved fs api messages =
          ("ImportError: Please install google-generativeai. " ++ e, zeroTokens)) ∧
      (∀ e, api (gemini_history fs messages) = .attributeError e →
        run_gemini_interleaved fs api messages =
          ("Error setting up Gemini call (AttributeError): " ++ e ++ ".", zeroTokens)) ∧
      (∀ e, api (gemini_history fs messages) = .typeError e →
        run_gemini_interleaved fs api messages =
          ("Type error during Gemini call (check arguments/version): " ++ e ++ ".", zeroTokens)) ∧
      (∀ tyName e, api (gemini_history fs messages) = .otherError tyName e →
        run_gemini_interleaved fs api messages =
          ("Error interacting with Gemini API: " ++ tyName ++ " - " ++ e, zeroTokens)) ∧
      (∀ text, api (gemini_history fs messages) = .ok text none →
        run_gemini_interleaved fs api messages = (text, zeroTokens)) ∧
      (∀ text i o, api (gemini_history fs messages) = .ok text (some (i, o)) →
        run_gemini_interleaved fs api messages = (text, ⟨i, o, i + o⟩)) := by
  intro fs api messages
  refine ⟨?_, ?_, ?_, ?_, ?_, ?_⟩ <;> intros <;>
    simp only [run_gemini_interleaved, *]

/-- Witness for C6 at concrete forced failures and a concrete
success. -/
theorem run_gemini_failure_classification_witness :
    run_gemini_interleaved (fun _ => .absent)
        (fun _ => .importError "No module named generativeai") [] =
      ("ImportError: Please install google-generativeai. No module named generativeai",
        zeroTokens) ∧
    run_gemini_interleaved (fun _ => .absent) (fun _ => .otherError "ValueError" "blocked") [] =
      ("Error interacting with Gemini API: ValueError - blocked", zeroTokens) ∧
    run_gemini_interleaved (fun _ => .absent) (fun _ => .ok "fine" (some (3, 4))) [] =
      ("fine", ⟨3, 4, 7⟩) := by
  refine ⟨?_, ?_, ?_⟩
  · rw [(run_gemini_failure_classification (fun _ => FileStatus.absent)
      (fun _ => .importError "No module named generativeai") []).1 _ rfl]
    decide
  · rw [(run_gemini_failure_classification (fun _ => FileStatus.absent)
      (fun _ => .otherError "ValueError" "blocked") []).2.2.2.1 _ _ rfl]
    decide
  · rw [(run_gemini_failure_classification (fun _ => FileStatus.absent)
      (fun _ => .ok "fine" (some (3, 4))) []).2.2.2.2.2 _ _ _ rfl]

/-- C7 counterexample: for an image reference whose load fails with an
exception other than `FileNotFoundError`/`UnidentifiedImageError`, the
code appends `[Error loading image: <basename>]` — the failure reason
("disk read failed" here) is only printed to the log and does NOT occur
in the placeholder, contrary to the claim's "a placeholder including the
failure reason". -/
theorem image_load_error_placeholder_counterexample :
    itemParts (fun _ => .loadError "disk read failed") (.str "/tmp/a.png") =
      [.text "[Error loading image: a.png]"] ∧
    occursIn "disk read failed" "[Error loading image: a.png]" = false := by
  exact ⟨by decide, by decide⟩

/-- C7 amended: for an image-reference string, a nonexistent path (or a
`FileNotFoundError` on open) yields a placeholder containing only the
file's base name; an existing but undecodable file yields a placeholder
noting the unidentifiable image; any other load failure yields a
placeholder noting the load error with the base name only — the failure
reason is logged but not included — and in all cases the adapter
recovers locally (the embedding is total, so nothing raises). -/
theorem image_placeholder_behavior :
    ∀ (fs : String → FileStatus) (s : String), is_image_path s = true →
      (fs s = .absent →
        itemParts fs (.str s) = [.text ("[Image not found: " ++ basename s ++ "]")]) ∧
      (fs s = .fileNotFound →
        itemParts fs (.str s) = [.text ("[Image not found: " ++ basename s ++ "]")]) ∧
      (fs s = .unidentified →
        itemParts fs (.str s) = [.text ("[Unidentifiable image: " ++ basename s ++ "]")]) ∧
      (∀ e, fs s = .loadError e →
        itemParts fs (.str s) = [.text ("[Error loading image: " ++ basename s ++ "]")]) := by
  intro fs s h
  refine ⟨?_, ?_, ?_, ?_⟩ <;> intros <;> simp [itemParts, h, *]

/-- Witness for the amended C7: a missing file's placeholder holds the
base name and not the directory prefix. -/
theorem image_placeholder_behavior_witness :
    itemParts (fun _ => .absent) (.str "shots/screen.png") =
      [.text "[Image not found: screen.png]"] ∧
    occursIn "shots/" "[Image not found: screen.png]" = false :=
  ⟨(image_placeholder_behavior (fun _ => .absent) "shots/screen.png" (by decide)).1 rfl,
   by decide⟩

/-- C10: a content-list item that is neither a string nor a mapping with
type tag `"text"` is silently skipped (no part, no placeholder, no
error), and a message whose content is neither a string nor a list
contributes zero parts and is dropped from the adapted history. -/
theorem unrecognized_content_skipped :
    ∀ fs : String → FileStatus,
      itemParts fs .other = [] ∧
      (∀ ty, itemParts fs (.otherDict ty) = []) ∧
      contentParts fs .other = [] ∧
      (∀ role, adaptMsg fs ⟨role, .other⟩ = none) := by
  intro fs
  exact ⟨rfl, fun ty => rfl, rfl, fun role => adaptMsg_empty_parts rfl⟩
